import Mathlib

/-!
Shallow embedding of the http-market-app repository.

Store side: market-app/src/my-store.js.  Amounts and quantities are JS
numbers; we embed them as rationals so that non-integer request
quantities (which the HTTP layer does not filter out) are representable.
Fallible file writes are embedded as boolean outcome parameters; the
persisted files (assets.json, transactions.json, the lock marker) are
the fields of StoreState.

Registry side: central-server.js (both the legacy single-product version
and the current multi-product version are present in the repository).
-/

namespace MarketApp

/-- One entry of assets.inventory: an object with `product` and `qty`
fields (my-store.js, defineProduct / processPurchase). -/
structure InventoryItem where
  product : String
  qty : ℚ
deriving Repr, DecidableEq

/-- The assets.json document (my-store.js, createInitialAssets). -/
structure Assets where
  capitalYen : ℚ
  procurementPts : ℚ
  inventory : List InventoryItem
  collection : List String
deriving Repr, DecidableEq

/-- createInitialAssets (my-store.js lines 61-68). -/
def createInitialAssets : Assets :=
  { capitalYen := 100000000
    procurementPts := 100000000
    inventory := []
    collection := [] }

/-- The product.json document (my-store.js, defineProduct). -/
structure Product where
  name : String
  priceYen : ℚ
deriving Repr, DecidableEq

/-- One entry of transactions.json (my-store.js, recordTransaction). -/
structure TxRecord where
  tradeId : String
  buyer : String
  seller : String
  product : String
  qty : ℚ
  price : ℚ
  ts : ℕ
deriving Repr, DecidableEq

/-- The errors thrown on the store's purchase path, identified - as the
/buy route does - by the thrown message.  lockContention is the message
thrown by updateAssets when the lock file already exists;
persistFailure and txLogFailure stand for a writeJSON error raised
while saving assets.json resp. transactions.json. -/
inductive StoreErr where
  | lockContention
  | productMismatch
  | insufficientInventory
  | persistFailure
  | txLogFailure
deriving Repr, DecidableEq

/-- The store's persisted state: the lock marker (assets.lock exists),
assets.json and transactions.json. -/
structure StoreState where
  lock : Bool
  assets : Assets
  transactions : List TxRecord
deriving Repr, DecidableEq

/-- updateAssets (my-store.js lines 145-174).  fs.openSync with flag wx
fails iff the lock file already exists; on contention the function
throws before touching the assets.  Otherwise the mutator runs on the
loaded assets; a mutator throw propagates, and the finally block removes
the lock file on every exit path.  `persistOk` is the outcome of the
writeJSON call that saves the mutated assets. -/
def updateAssets (persistOk : Bool) (updateFn : Assets → Except StoreErr Assets)
    (s : StoreState) : Except StoreErr Assets × StoreState :=
  if s.lock then
    (Except.error StoreErr.lockContention, s)
  else
    match updateFn s.assets with
    | Except.error e => (Except.error e, { s with lock := false })
    | Except.ok updated =>
      if persistOk then
        (Except.ok updated, { s with lock := false, assets := updated })
      else
        (Except.error StoreErr.persistFailure, { s with lock := false })

/-- recordTransaction (my-store.js lines 181-193): load transactions.json,
push the record stamped with the current unix time, write it back.
`txOk` is the outcome of the writeJSON call; on failure the error is
rethrown and the file is unchanged. -/
def recordTransaction (txOk : Bool) (t : TxRecord) (s : StoreState) :
    Except StoreErr Unit × StoreState :=
  if txOk then
    (Except.ok (), { s with transactions := s.transactions ++ [t] })
  else
    (Except.error StoreErr.txLogFailure, s)

/-- Array.prototype.find over the inventory (my-store.js line 261). -/
def findInventory (inv : List InventoryItem) (productName : String) :
    Option InventoryItem :=
  inv.find? (fun item => item.product == productName)

/-- The in-place decrement of the found inventory item (my-store.js
line 269): the first entry whose product matches loses `q` units. -/
def decrementFirst : List InventoryItem → String → ℚ → List InventoryItem
  | [], _, _ => []
  | item :: rest, name, q =>
    if item.product == name then { item with qty := item.qty - q } :: rest
    else item :: decrementFirst rest name q

/-- The mutator passed to updateAssets by processPurchase (my-store.js
lines 259-276): find the inventory entry; missing entry or qty below the
request throws InsufficientInventory; otherwise decrement the entry and
add priceYen times quantity to capitalYen. -/
def purchaseMutator (myProduct : Product) (productName : String) (quantity : ℚ)
    (assets : Assets) : Except StoreErr Assets :=
  match findInventory assets.inventory productName with
  | none => Except.error StoreErr.insufficientInventory
  | some item =>
    if item.qty < quantity then Except.error StoreErr.insufficientInventory
    else
      Except.ok
        { assets with
          inventory := decrementFirst assets.inventory productName quantity
          capitalYen := assets.capitalYen + myProduct.priceYen * quantity }

/-- The object returned by processPurchase on success. -/
structure PurchaseResult where
  success : Bool
  tradeId : String
  product : String
  qty : ℚ
  totalPrice : ℚ
deriving Repr, DecidableEq

/-- The trade identifier (my-store.js line 256): Date.now() and a random
suffix below 1000, both embedded as parameters. -/
def mkTradeId (nowMs rand : ℕ) : String :=
  "trade-" ++ toString nowMs ++ "-" ++ toString rand

/-- processPurchase (my-store.js lines 249-295).  Throws productMismatch
when the requested name differs from the defined product; then mutates
the assets under updateAssets; then appends the transaction record; on
success returns the result object with totalPrice = priceYen * qty.
`nowMs`, `rand` and `ts` embed Date.now(), the random suffix and the
unix timestamp of the log entry. -/
def processPurchase (myProduct : Product) (myIp : String)
    (nowMs rand ts : ℕ) (persistOk txOk : Bool)
    (productName : String) (quantity : ℚ) (buyerIp : String)
    (s : StoreState) : Except StoreErr PurchaseResult × StoreState :=
  if productName ≠ myProduct.name then
    (Except.error StoreErr.productMismatch, s)
  else
    let tradeId := mkTradeId nowMs rand
    match updateAssets persistOk (purchaseMutator myProduct productName quantity) s with
    | (Except.error e, s1) => (Except.error e, s1)
    | (Except.ok _, s1) =>
      match recordTransaction txOk
          { tradeId := tradeId, buyer := buyerIp, seller := myIp
            product := productName, qty := quantity
            price := myProduct.priceYen, ts := ts } s1 with
      | (Except.error e, s2) => (Except.error e, s2)
      | (Except.ok _, s2) =>
        (Except.ok
          { success := true, tradeId := tradeId, product := productName
            qty := quantity, totalPrice := myProduct.priceYen * quantity }, s2)

/-- The store lifecycle flag serverState (my-store.js line 35). -/
inductive ServerState where
  | INIT
  | CONFIGURED
  | REGISTERED
  | ACTIVE
deriving Repr, DecidableEq

/-- The JSON body of a /buy request.  `none` embeds an absent field.
A present qty is embedded as a rational: the route's typeof check only
excludes non-number values, which the embedding excludes by typing. -/
structure BuyRequest where
  product : Option String
  qty : Option ℚ
deriving Repr, DecidableEq

/-- JS truthiness of an optional string: undefined and the empty string
are falsy. -/
def jsTruthyStr : Option String → Bool
  | none => false
  | some s => ¬ s == ""

/-- JS truthiness of an optional number: undefined and 0 are falsy. -/
def jsTruthyNum : Option ℚ → Bool
  | none => false
  | some q => ¬ q == 0

/-- The HTTP response of the /buy route: a 200 with the purchase result,
or an error status with the JSON error message. -/
inductive BuyResponse where
  | success (r : PurchaseResult)
  | failure (status : ℕ) (error : String)
deriving Repr, DecidableEq

/-- The HTTP status code of a /buy response. -/
def BuyResponse.statusCode : BuyResponse → ℕ
  | BuyResponse.success _ => 200
  | BuyResponse.failure st _ => st

/-- The /buy route (my-store.js lines 347-389).  Order of checks: a 503
while not ACTIVE; a 400 when product or qty is falsy; a 400 when qty is
not positive (the route does not check integrality); then
processPurchase runs, its productMismatch and insufficientInventory
messages map to 409, and every other thrown error reaches the outer
catch and maps to 500. -/
def buyHandler (serverState : ServerState) (myProduct : Product) (myIp : String)
    (nowMs rand ts : ℕ) (persistOk txOk : Bool)
    (req : BuyRequest) (buyerIp : String) (s : StoreState) :
    BuyResponse × StoreState :=
  if serverState ≠ ServerState.ACTIVE then
    (BuyResponse.failure 503 "サーバーがアクティブではありません", s)
  else if ¬ (jsTruthyStr req.product && jsTruthyNum req.qty) then
    (BuyResponse.failure 400 "必須パラメータが不足しています", s)
  else
    match req.product, req.qty with
    | some productName, some qty =>
      if qty ≤ 0 then
        (BuyResponse.failure 400 "数量は正の整数である必要があります", s)
      else
        match processPurchase myProduct myIp nowMs rand ts persistOk txOk
            productName qty buyerIp s with
        | (Except.ok r, s1) => (BuyResponse.success r, s1)
        | (Except.error StoreErr.productMismatch, s1) =>
          (BuyResponse.failure 409 "商品名が一致しません", s1)
        | (Except.error StoreErr.insufficientInventory, s1) =>
          (BuyResponse.failure 409 "在庫が不足しています", s1)
        | (Except.error _, s1) =>
          (BuyResponse.failure 500 "サーバーエラーが発生しました", s1)
    | _, _ =>
      (BuyResponse.failure 400 "必須パラメータが不足しています", s)

/-! ## Registry side (central-server.js)

The repository holds two versions of the registry.  The legacy version's
/register route reads the single-product shape ip, product, priceYen,
port and stores a record with `product` and `price` fields; the current
version's /register route reads the multi-product shape ip, port,
products and stores a record with a `products` array.  The current
/markets route normalizes both stored shapes on read.  A stored record
is a JS object that carries whichever fields its writer set; we embed
every field the two writers use, absent fields as `none`. -/

/-- One entry of a stored `products` array: product and price fields
(current /register, lines 405-408 of the current version). -/
structure CatalogItem where
  product : String
  price : ℚ
deriving Repr, DecidableEq

/-- One record of markets.json.  The current /register writes `products`
and leaves `product` and `price` absent; the legacy /register writes
`product` and `price` and leaves `products` absent.  `createdAt` is only
set by the insert branches. -/
structure MarketRecord where
  products : Option (List CatalogItem)
  product : Option String
  price : Option ℚ
  address : String
  status : Option String
  createdAt : Option String
  updatedAt : Option String
deriving Repr, DecidableEq

/-- One entry of a /register request's `products` array; `none` embeds an
absent (or, for priceYen, non-number) field. -/
structure RegisterItem where
  product : Option String
  priceYen : Option ℚ
deriving Repr, DecidableEq

/-- The JSON body of a /register request, holding both the multi-product
fields (ip, port, products) and the legacy fields (ip, product,
priceYen, port); absent fields are `none`.  The port is embedded as a
natural number (its JS value is a number or numeric string; zero is the
falsy case). -/
structure RegisterRequest where
  ip : Option String
  port : Option ℕ
  products : Option (List RegisterItem)
  product : Option String
  priceYen : Option ℚ
deriving Repr, DecidableEq

/-- JS truthiness of the optional port number: undefined and 0 are
falsy. -/
def jsTruthyPort : Option ℕ → Bool
  | none => false
  | some p => ¬ p == 0

/-- The `address` key (both /register versions): the template string
ip:port. -/
def mkAddress (ip : String) (port : ℕ) : String :=
  ip ++ ":" ++ toString port

/-- The check typeof x is number and x positive on an optional number:
absent or non-number values fail it. -/
def posNum : Option ℚ → Bool
  | none => false
  | some p => decide (0 < p)

/-- The per-item validation of the current /register (its for loop):
item.product truthy, item.priceYen a positive number. -/
def registerItemValid (it : RegisterItem) : Bool :=
  jsTruthyStr it.product && posNum it.priceYen

/-- Array.prototype.findIndex on the address key (both /register
versions), returning `none` where JS returns -1. -/
def jsFindIndex {α : Type} (p : α → Bool) : List α → Option ℕ
  | [] => none
  | x :: xs => if p x then some 0 else (jsFindIndex p xs).map (· + 1)

/-- An HTTP response of a registry route: status code and JSON message. -/
structure RegistryResponse where
  status : ℕ
  message : String
deriving Repr, DecidableEq

/-- The record written by the current /register's update branch (lines
404-412 of the current version): a fresh object with only products,
address, status and updatedAt - createdAt is not carried over. -/
def updatedMulti (catalog : List CatalogItem) (address now : String) :
    MarketRecord :=
  { products := some catalog, product := none, price := none
    address := address, status := some "ONLINE"
    createdAt := none, updatedAt := some now }

/-- The record pushed by the current /register's insert branch (lines
414-424): as the update branch plus createdAt. -/
def insertedMulti (catalog : List CatalogItem) (address now : String) :
    MarketRecord :=
  { updatedMulti catalog address now with createdAt := some now }

/-- The mapping of request items to stored catalog entries (lines
405-408): product and price fields taken from the validated item, whose
fields are present after validation (getD supplies the unreachable
defaults). -/
def normalizeItems (items : List RegisterItem) : List CatalogItem :=
  items.map (fun it => { product := it.product.getD "", price := it.priceYen.getD 0 })

/-- The current /register route (current central-server.js version,
lines 367-435 of the concatenated file).  Validation: ip, port truthy,
products a non-empty array, every item valid; then upsert by address and
save the whole directory.  Returns the response and the directory as
persisted. -/
def registerMulti (now : String) (req : RegisterRequest)
    (markets : List MarketRecord) : RegistryResponse × List MarketRecord :=
  if ¬ (jsTruthyStr req.ip && jsTruthyPort req.port) then
    ({ status := 400, message := "必須パラメータが不足しています" }, markets)
  else
    match req.products with
    | none =>
      ({ status := 400, message := "必須パラメータが不足しています" }, markets)
    | some items =>
      if items.isEmpty then
        ({ status := 400, message := "必須パラメータが不足しています" }, markets)
      else if ¬ items.all registerItemValid then
        ({ status := 400, message := "商品名と正の価格が必要です" }, markets)
      else
        let address := mkAddress (req.ip.getD "") (req.port.getD 0)
        let catalog := normalizeItems items
        let markets1 :=
          match jsFindIndex (fun m => m.address == address) markets with
          | some i => markets.set i (updatedMulti catalog address now)
          | none => markets ++ [insertedMulti catalog address now]
        ({ status := 200, message := "マーケット登録が完了しました" }, markets1)

/-- The record written by the legacy /register's update branch (lines
154-160 of the legacy version). -/
def updatedLegacy (product : String) (price : ℚ) (address now : String) :
    MarketRecord :=
  { products := none, product := some product, price := some price
    address := address, status := some "ONLINE"
    createdAt := none, updatedAt := some now }

/-- The record pushed by the legacy /register's insert branch (lines
163-170). -/
def insertedLegacy (product : String) (price : ℚ) (address now : String) :
    MarketRecord :=
  { updatedLegacy product price address now with createdAt := some now }

/-- The legacy /register route (legacy central-server.js version, lines
128-181).  Validation: ip, product, priceYen, port all truthy, priceYen
a positive number; then upsert by address. -/
def registerLegacy (now : String) (req : RegisterRequest)
    (markets : List MarketRecord) : RegistryResponse × List MarketRecord :=
  if ¬ (jsTruthyStr req.ip && jsTruthyStr req.product &&
        jsTruthyNum req.priceYen && jsTruthyPort req.port) then
    ({ status := 400, message := "必須パラメータが不足しています" }, markets)
  else if ¬ posNum req.priceYen then
    ({ status := 400, message := "価格は正の数値である必要があります" }, markets)
  else
    let address := mkAddress (req.ip.getD "") (req.port.getD 0)
    let markets1 :=
      match jsFindIndex (fun m => m.address == address) markets with
      | some i =>
        markets.set i (updatedLegacy (req.product.getD "") (req.priceYen.getD 0) address now)
      | none =>
        markets ++ [insertedLegacy (req.product.getD "") (req.priceYen.getD 0) address now]
    ({ status := 200, message := "マーケット登録が完了しました" }, markets1)

/-- One item of a /markets response entry; the price is optional because
the legacy read branch copies a possibly absent `price` field. -/
structure ListingItem where
  product : String
  price : Option ℚ
deriving Repr, DecidableEq

/-- One entry of the current /markets response. -/
structure ListingEntry where
  products : List ListingItem
  address : String
  status : String
deriving Repr, DecidableEq

/-- The status projection market.status or UNKNOWN (both /markets
versions): a falsy status field becomes UNKNOWN. -/
def statusOrUnknown : Option String → String
  | none => "UNKNOWN"
  | some st => if st == "" then "UNKNOWN" else st

/-- The per-record projection of the current /markets route (lines
443-466 of the current version): records with a `products` array pass
through, single-product legacy records are wrapped into a one-item
array only when market.product is truthy (a non-empty string), and
records matching neither guard map to nothing and are dropped by the
filter. -/
def listEntry (r : MarketRecord) : Option ListingEntry :=
  match r.products with
  | some ps =>
    some { products := ps.map (fun c => { product := c.product, price := some c.price })
           address := r.address, status := statusOrUnknown r.status }
  | none =>
    match r.product with
    | some p =>
      if p == "" then none
      else
        some { products := [{ product := p, price := r.price }]
               address := r.address, status := statusOrUnknown r.status }
    | none => none

/-- The current /markets route body: map each record through the
projection and drop the filtered ones. -/
def listMarkets (markets : List MarketRecord) : List ListingEntry :=
  markets.filterMap listEntry

/-- checkServerHealth (current version, lines 315-325): a probe outcome
is the HTTP status of the GET /health response, or `none` for a timeout
or connection failure; the check returns true exactly on a 200. -/
def checkServerHealth (probe : String → Option ℕ) (address : String) : Bool :=
  match probe address with
  | some code => code == 200
  | none => false

/-- performHealthChecks (current version, lines 331-352): every record's
status is recomputed from its probe, all other fields are spread through
unchanged, and the whole mapped directory is saved once at the end. -/
def performHealthChecks (probe : String → Option ℕ)
    (markets : List MarketRecord) : List MarketRecord :=
  markets.map (fun m =>
    { m with status := some (if checkServerHealth probe m.address then "ONLINE" else "OFFLINE") })

/-! ## Helper lemmas (store side) -/

theorem unlock_id (s : StoreState) (h : s.lock = false) :
    { s with lock := false } = s := by
  cases s
  simp_all

theorem findInventory_decrementFirst (inv : List InventoryItem) (name : String)
    (q : ℚ) (item : InventoryItem)
    (h : findInventory inv name = some item) :
    findInventory (decrementFirst inv name q) name =
      some { product := item.product, qty := item.qty - q } := by
  induction inv with
  | nil => simp [findInventory] at h
  | cons x xs ih =>
    by_cases hx : x.product == name
    · simp [findInventory, List.find?, hx] at h
      subst h
      simp [decrementFirst, hx, findInventory, List.find?]
    · simp [findInventory, List.find?, hx] at h ⊢
      simp [decrementFirst, hx, findInventory, List.find?] at ih ⊢
      exact ih h

/-! ## Claim theorems (store side) -/

/-- C8: every updateAssets invocation that acquires the lock (the lock
was free) leaves the lock released when it returns, on every exit path:
mutator success, mutator throw, and persist failure alike. -/
theorem updateAssets_releases_lock (persistOk : Bool)
    (updateFn : Assets → Except StoreErr Assets) (s : StoreState)
    (h : s.lock = false) :
    ((updateAssets persistOk updateFn s).2).lock = false := by
  unfold updateAssets
  rw [h]
  cases updateFn s.assets with
  | error e => simp
  | ok updated => cases persistOk <;> simp

/-- Witness for C8 at a concrete input. -/
theorem updateAssets_releases_lock_witness :
    ((updateAssets false
        (fun _ => Except.error StoreErr.insufficientInventory)
        { lock := false, assets := createInitialAssets, transactions := [] }).2).lock
      = false :=
  updateAssets_releases_lock false
    (fun _ => Except.error StoreErr.insufficientInventory)
    { lock := false, assets := createInitialAssets, transactions := [] } rfl

/-- C1: with the lock free and both writes succeeding, buying q units of
the defined product out of an inventory entry holding item.qty ≥ q units
succeeds, returns the result object with totalPrice = priceYen * q and
the time-and-random trade identifier, leaves the entry at item.qty - q,
adds priceYen * q to capitalYen, and appends one transaction record. -/
theorem processPurchase_success (myProduct : Product) (myIp : String)
    (nowMs rand ts : ℕ) (q : ℚ) (buyerIp : String) (s : StoreState)
    (item : InventoryItem)
    (hitem : findInventory s.assets.inventory myProduct.name = some item)
    (hq : q ≤ item.qty) (hlock : s.lock = false) :
    (processPurchase myProduct myIp nowMs rand ts true true
        myProduct.name q buyerIp s).1 =
      Except.ok
        { success := true, tradeId := mkTradeId nowMs rand
          product := myProduct.name, qty := q
          totalPrice := myProduct.priceYen * q } ∧
    findInventory ((processPurchase myProduct myIp nowMs rand ts true true
        myProduct.name q buyerIp s).2).assets.inventory myProduct.name =
      some { product := item.product, qty := item.qty - q } ∧
    ((processPurchase myProduct myIp nowMs rand ts true true
        myProduct.name q buyerIp s).2).assets.capitalYen =
      s.assets.capitalYen + myProduct.priceYen * q ∧
    ((processPurchase myProduct myIp nowMs rand ts true true
        myProduct.name q buyerIp s).2).transactions =
      s.transactions ++
        [{ tradeId := mkTradeId nowMs rand, buyer := buyerIp, seller := myIp
           product := myProduct.name, qty := q
           price := myProduct.priceYen, ts := ts }] := by
  have hnotlt : ¬ item.qty < q := not_lt.2 hq
  unfold processPurchase updateAssets recordTransaction
  simp [hlock, purchaseMutator, hitem, hnotlt,
    findInventory_decrementFirst s.assets.inventory myProduct.name q item hitem]

/-- Witness for C1 at a concrete input. -/
theorem processPurchase_success_witness :
    (processPurchase { name := "juice", priceYen := 120 } "1.1.1.1" 9 8 7 true true
        "juice" 5 "2.2.2.2"
        { lock := false
          assets := { capitalYen := 50, procurementPts := 0
                      inventory := [{ product := "juice", qty := 1000 }]
                      collection := [] }
          transactions := [] }).1 =
      Except.ok
        { success := true, tradeId := mkTradeId 9 8
          product := "juice", qty := 5, totalPrice := 120 * 5 } ∧
    findInventory ((processPurchase { name := "juice", priceYen := 120 } "1.1.1.1"
        9 8 7 true true "juice" 5 "2.2.2.2"
        { lock := false
          assets := { capitalYen := 50, procurementPts := 0
                      inventory := [{ product := "juice", qty := 1000 }]
                      collection := [] }
          transactions := [] }).2).assets.inventory "juice" =
      some { product := "juice", qty := 1000 - 5 } ∧
    ((processPurchase { name := "juice", priceYen := 120 } "1.1.1.1" 9 8 7 true true
        "juice" 5 "2.2.2.2"
        { lock := false
          assets := { capitalYen := 50, procurementPts := 0
                      inventory := [{ product := "juice", qty := 1000 }]
                      collection := [] }
          transactions := [] }).2).assets.capitalYen = 50 + 120 * 5 ∧
    ((processPurchase { name := "juice", priceYen := 120 } "1.1.1.1" 9 8 7 true true
        "juice" 5 "2.2.2.2"
        { lock := false
          assets := { capitalYen := 50, procurementPts := 0
                      inventory := [{ product := "juice", qty := 1000 }]
                      collection := [] }
          transactions := [] }).2).transactions =
      [] ++
        [{ tradeId := mkTradeId 9 8, buyer := "2.2.2.2", seller := "1.1.1.1"
           product := "juice", qty := 5, price := 120, ts := 7 }] :=
  processPurchase_success { name := "juice", priceYen := 120 } "1.1.1.1" 9 8 7 5
    "2.2.2.2"
    { lock := false
      assets := { capitalYen := 50, procurementPts := 0
                  inventory := [{ product := "juice", qty := 1000 }]
                  collection := [] }
      transactions := [] }
    { product := "juice", qty := 1000 } (by decide) (by norm_num) rfl

/-- C2: with the lock free, buying q units of the defined product when
the inventory entry holds item.qty < q units fails with the
insufficient-inventory error and returns the store state bit for bit as
it was: capitalYen, procurementPts, inventory and the transaction log
are untouched, whatever the write outcomes would have been. -/
theorem processPurchase_insufficient_unchanged (myProduct : Product)
    (myIp : String) (nowMs rand ts : ℕ) (persistOk txOk : Bool) (q : ℚ)
    (buyerIp : String) (s : StoreState) (item : InventoryItem)
    (hitem : findInventory s.assets.inventory myProduct.name = some item)
    (hlt : item.qty < q) (hlock : s.lock = false) :
    processPurchase myProduct myIp nowMs rand ts persistOk txOk
        myProduct.name q buyerIp s =
      (Except.error StoreErr.insufficientInventory, s) := by
  unfold processPurchase updateAssets
  simp [hlock, purchaseMutator, hitem, hlt, unlock_id s hlock]

/-- Witness for C2 at a concrete input. -/
theorem processPurchase_insufficient_unchanged_witness :
    processPurchase { name := "juice", priceYen := 120 } "1.1.1.1" 9 8 7 true true
        "juice" 2000 "2.2.2.2"
        { lock := false
          assets := { capitalYen := 50, procurementPts := 0
                      inventory := [{ product := "juice", qty := 995 }]
                      collection := [] }
          transactions := [] } =
      (Except.error StoreErr.insufficientInventory,
        { lock := false
          assets := { capitalYen := 50, procurementPts := 0
                      inventory := [{ product := "juice", qty := 995 }]
                      collection := [] }
          transactions := [] }) :=
  processPurchase_insufficient_unchanged { name := "juice", priceYen := 120 }
    "1.1.1.1" 9 8 7 true true 2000 "2.2.2.2"
    { lock := false
      assets := { capitalYen := 50, procurementPts := 0
                  inventory := [{ product := "juice", qty := 995 }]
                  collection := [] }
      transactions := [] }
    { product := "juice", qty := 995 } (by decide) (by norm_num) rfl

/-- C4: the /buy validation does not reject non-integer quantities.  A
request for qty 5/2 of the defined product, against the code's own
requirement message that the quantity be a positive integer, passes
validation, reaches the ledger and succeeds: the response is a 200 with
totalPrice 300, and the inventory entry is left at the non-integer
quantity 1995/2. -/
theorem buy_accepts_noninteger_qty :
    (buyHandler ServerState.ACTIVE { name := "りんごジュース", priceYen := 120 }
        "127.0.0.1" 99 7 55 true true
        { product := some "りんごジュース", qty := some (5/2) } "10.0.0.2"
        { lock := false
          assets := { capitalYen := 0, procurementPts := 0
                      inventory := [{ product := "りんごジュース", qty := 1000 }]
                      collection := [] }
          transactions := [] }).1 =
      BuyResponse.success
        { success := true, tradeId := mkTradeId 99 7
          product := "りんごジュース", qty := 5/2, totalPrice := 300 } ∧
    findInventory ((buyHandler ServerState.ACTIVE
        { name := "りんごジュース", priceYen := 120 }
        "127.0.0.1" 99 7 55 true true
        { product := some "りんごジュース", qty := some (5/2) } "10.0.0.2"
        { lock := false
          assets := { capitalYen := 0, procurementPts := 0
                      inventory := [{ product := "りんごジュース", qty := 1000 }]
                      collection := [] }
          transactions := [] }).2).assets.inventory "りんごジュース" =
      some { product := "りんごジュース", qty := 1995/2 } := by
  have hne : ("りんごジュース" : String) ≠ "" := by decide
  constructor <;>
    norm_num [buyHandler, processPurchase, updateAssets, recordTransaction,
      purchaseMutator, findInventory, decrementFirst, jsTruthyStr, jsTruthyNum,
      mkTradeId, List.find?, hne]

/-- C10: with the ledger mutation persisted and the transaction-log
write failing, /buy answers 500, yet capitalYen keeps the added
priceYen * q, the inventory entry keeps the decrement, and the
transaction log is exactly what it was - no record documents the
committed mutation. -/
theorem buy_txlog_failure_after_commit (myProduct : Product) (myIp : String)
    (nowMs rand ts : ℕ) (q : ℚ) (buyerIp : String) (s : StoreState)
    (item : InventoryItem)
    (hname : myProduct.name ≠ "")
    (hitem : findInventory s.assets.inventory myProduct.name = some item)
    (hq : q ≤ item.qty) (hqpos : 0 < q) (hlock : s.lock = false) :
    (buyHandler ServerState.ACTIVE myProduct myIp nowMs rand ts true false
        { product := some myProduct.name, qty := some q } buyerIp s).1 =
      BuyResponse.failure 500 "サーバーエラーが発生しました" ∧
    ((buyHandler ServerState.ACTIVE myProduct myIp nowMs rand ts true false
        { product := some myProduct.name, qty := some q } buyerIp s).2).assets.capitalYen =
      s.assets.capitalYen + myProduct.priceYen * q ∧
    findInventory ((buyHandler ServerState.ACTIVE myProduct myIp nowMs rand ts true false
        { product := some myProduct.name, qty := some q } buyerIp s).2).assets.inventory
        myProduct.name =
      some { product := item.product, qty := item.qty - q } ∧
    ((buyHandler ServerState.ACTIVE myProduct myIp nowMs rand ts true false
        { product := some myProduct.name, qty := some q } buyerIp s).2).transactions =
      s.transactions := by
  have hq0 : ¬ q ≤ 0 := not_le.2 hqpos
  have hqne : ¬ q = 0 := ne_of_gt hqpos
  have hnotlt : ¬ item.qty < q := not_lt.2 hq
  unfold buyHandler processPurchase updateAssets recordTransaction
  simp [jsTruthyStr, jsTruthyNum, hname, hqne, hq0, hlock, purchaseMutator,
    hitem, hnotlt,
    findInventory_decrementFirst s.assets.inventory myProduct.name q item hitem]

/-- Witness for C10 at a concrete input. -/
theorem buy_txlog_failure_after_commit_witness :
    (buyHandler ServerState.ACTIVE { name := "juice", priceYen := 120 } "1.1.1.1"
        9 8 7 true false { product := some "juice", qty := some 5 } "2.2.2.2"
        { lock := false
          assets := { capitalYen := 50, procurementPts := 0
                      inventory := [{ product := "juice", qty := 1000 }]
                      collection := [] }
          transactions := [] }).1 =
      BuyResponse.failure 500 "サーバーエラーが発生しました" ∧
    ((buyHandler ServerState.ACTIVE { name := "juice", priceYen := 120 } "1.1.1.1"
        9 8 7 true false { product := some "juice", qty := some 5 } "2.2.2.2"
        { lock := false
          assets := { capitalYen := 50, procurementPts := 0
                      inventory := [{ product := "juice", qty := 1000 }]
                      collection := [] }
          transactions := [] }).2).assets.capitalYen = 50 + 120 * 5 ∧
    findInventory ((buyHandler ServerState.ACTIVE { name := "juice", priceYen := 120 }
        "1.1.1.1" 9 8 7 true false { product := some "juice", qty := some 5 } "2.2.2.2"
        { lock := false
          assets := { capitalYen := 50, procurementPts := 0
                      inventory := [{ product := "juice", qty := 1000 }]
                      collection := [] }
          transactions := [] }).2).assets.inventory "juice" =
      some { product := "juice", qty := 1000 - 5 } ∧
    ((buyHandler ServerState.ACTIVE { name := "juice", priceYen := 120 } "1.1.1.1"
        9 8 7 true false { product := some "juice", qty := some 5 } "2.2.2.2"
        { lock := false
          assets := { capitalYen := 50, procurementPts := 0
                      inventory := [{ product := "juice", qty := 1000 }]
                      collection := [] }
          transactions := [] }).2).transactions = [] :=
  buy_txlog_failure_after_commit { name := "juice", priceYen := 120 } "1.1.1.1"
    9 8 7 5 "2.2.2.2"
    { lock := false
      assets := { capitalYen := 50, procurementPts := 0
                  inventory := [{ product := "juice", qty := 1000 }]
                  collection := [] }
      transactions := [] }
    { product := "juice", qty := 1000 }
    (by decide) (by decide) (by norm_num) (by norm_num) rfl

/-- C3 counterexample: a buy of the defined product that reaches the
ledger step while the lock is already held is answered with HTTP 500,
not with a conflict 409 as the claim states. -/
theorem buy_lockContention_not_conflict :
    (buyHandler ServerState.ACTIVE { name := "juice", priceYen := 120 } "1.1.1.1"
        9 8 7 true true { product := some "juice", qty := some 5 } "2.2.2.2"
        { lock := true
          assets := { capitalYen := 0, procurementPts := 0
                      inventory := [{ product := "juice", qty := 1000 }]
                      collection := [] }
          transactions := [] }).1 =
      BuyResponse.failure 500 "サーバーエラーが発生しました" ∧
    ((buyHandler ServerState.ACTIVE { name := "juice", priceYen := 120 } "1.1.1.1"
        9 8 7 true true { product := some "juice", qty := some 5 } "2.2.2.2"
        { lock := true
          assets := { capitalYen := 0, procurementPts := 0
                      inventory := [{ product := "juice", qty := 1000 }]
                      collection := [] }
          transactions := [] }).1).statusCode ≠ 409 := by
  constructor <;> decide

/-- C3 amended: ServiceUnavailable (503) and MalformedRequest (400) are
surfaced before any ledger or lock access, and ProductMismatch and
InsufficientInventory are surfaced as 409 conflicts, all with the store
state returned exactly as it was; but a buy reaching the ledger step
while the lock is held is surfaced as an internal 500 (the lock error
message is not one the route maps to 409), also with no state change. -/
theorem buy_error_surfacing (myProduct : Product) (myIp : String)
    (nowMs rand ts : ℕ) (persistOk txOk : Bool) (req : BuyRequest)
    (buyerIp : String) (s : StoreState) (serverState : ServerState)
    (pn : String) (q : ℚ) (item : InventoryItem) :
    (serverState ≠ ServerState.ACTIVE →
      buyHandler serverState myProduct myIp nowMs rand ts persistOk txOk
          req buyerIp s =
        (BuyResponse.failure 503 "サーバーがアクティブではありません", s)) ∧
    ((jsTruthyStr req.product && jsTruthyNum req.qty) = false →
      buyHandler ServerState.ACTIVE myProduct myIp nowMs rand ts persistOk txOk
          req buyerIp s =
        (BuyResponse.failure 400 "必須パラメータが不足しています", s)) ∧
    (pn ≠ "" → q ≠ 0 → q ≤ 0 →
      buyHandler ServerState.ACTIVE myProduct myIp nowMs rand ts persistOk txOk
          { product := some pn, qty := some q } buyerIp s =
        (BuyResponse.failure 400 "数量は正の整数である必要があります", s)) ∧
    (pn ≠ "" → 0 < q → pn ≠ myProduct.name →
      buyHandler ServerState.ACTIVE myProduct myIp nowMs rand ts persistOk txOk
          { product := some pn, qty := some q } buyerIp s =
        (BuyResponse.failure 409 "商品名が一致しません", s)) ∧
    (pn ≠ "" → 0 < q → pn = myProduct.name → s.lock = true →
      buyHandler ServerState.ACTIVE myProduct myIp nowMs rand ts persistOk txOk
          { product := some pn, qty := some q } buyerIp s =
        (BuyResponse.failure 500 "サーバーエラーが発生しました", s)) ∧
    (pn ≠ "" → 0 < q → pn = myProduct.name → s.lock = false →
      findInventory s.assets.inventory pn = some item → item.qty < q →
      buyHandler ServerState.ACTIVE myProduct myIp nowMs rand ts persistOk txOk
          { product := some pn, qty := some q } buyerIp s =
        (BuyResponse.failure 409 "在庫が不足しています", s)) := by
  refine ⟨?_, ?_, ?_, ?_, ?_, ?_⟩
  · intro hst
    unfold buyHandler
    simp [hst]
  · intro hval
    unfold buyHandler
    simp [hval]
  · intro hpn hq0 hle
    unfold buyHandler
    simp [jsTruthyStr, jsTruthyNum, hpn, hq0, hle]
  · intro hpn hqpos hne
    unfold buyHandler processPurchase
    simp [jsTruthyStr, jsTruthyNum, hpn, ne_of_gt hqpos, not_le.2 hqpos, hne]
  · intro hpn hqpos heq hlock
    unfold buyHandler processPurchase updateAssets
    subst heq
    simp [jsTruthyStr, jsTruthyNum, hpn, ne_of_gt hqpos, not_le.2 hqpos, hlock]
  · intro hpn hqpos heq hlock hitem hlt
    unfold buyHandler processPurchase updateAssets
    subst heq
    simp [jsTruthyStr, jsTruthyNum, hpn, ne_of_gt hqpos, not_le.2 hqpos, hlock,
      purchaseMutator, hitem, hlt, unlock_id s hlock]

/-- Witness for the amended C3: a not-ACTIVE store, a request missing
its fields, and a lock-held buy, each at a concrete input. -/
theorem buy_error_surfacing_witness :
    (ServerState.CONFIGURED ≠ ServerState.ACTIVE →
      buyHandler ServerState.CONFIGURED { name := "juice", priceYen := 120 }
          "1.1.1.1" 9 8 7 true true { product := none, qty := some 5 } "2.2.2.2"
          { lock := true
            assets := { capitalYen := 0, procurementPts := 0
                        inventory := [{ product := "juice", qty := 1000 }]
                        collection := [] }
            transactions := [] } =
        (BuyResponse.failure 503 "サーバーがアクティブではありません",
          { lock := true
            assets := { capitalYen := 0, procurementPts := 0
                        inventory := [{ product := "juice", qty := 1000 }]
                        collection := [] }
            transactions := [] })) ∧
    ((jsTruthyStr (none : Option String) && jsTruthyNum (some (5 : ℚ))) = false →
      buyHandler ServerState.ACTIVE { name := "juice", priceYen := 120 }
          "1.1.1.1" 9 8 7 true true { product := none, qty := some 5 } "2.2.2.2"
          { lock := true
            assets := { capitalYen := 0, procurementPts := 0
                        inventory := [{ product := "juice", qty := 1000 }]
                        collection := [] }
            transactions := [] } =
        (BuyResponse.failure 400 "必須パラメータが不足しています",
          { lock := true
            assets := { capitalYen := 0, procurementPts := 0
                        inventory := [{ product := "juice", qty := 1000 }]
                        collection := [] }
            transactions := [] })) ∧
    (("juice" : String) ≠ "" → (5 : ℚ) ≠ 0 → (5 : ℚ) ≤ 0 →
      buyHandler ServerState.ACTIVE { name := "juice", priceYen := 120 }
          "1.1.1.1" 9 8 7 true true { product := some "juice", qty := some 5 } "2.2.2.2"
          { lock := true
            assets := { capitalYen := 0, procurementPts := 0
                        inventory := [{ product := "juice", qty := 1000 }]
                        collection := [] }
            transactions := [] } =
        (BuyResponse.failure 400 "数量は正の整数である必要があります",
          { lock := true
            assets := { capitalYen := 0, procurementPts := 0
                        inventory := [{ product := "juice", qty := 1000 }]
                        collection := [] }
            transactions := [] })) ∧
    (("juice" : String) ≠ "" → (0 : ℚ) < 5 → ("juice" : String) ≠ "juice" →
      buyHandler ServerState.ACTIVE { name := "juice", priceYen := 120 }
          "1.1.1.1" 9 8 7 true true { product := some "juice", qty := some 5 } "2.2.2.2"
          { lock := true
            assets := { capitalYen := 0, procurementPts := 0
                        inventory := [{ product := "juice", qty := 1000 }]
                        collection := [] }
            transactions := [] } =
        (BuyResponse.failure 409 "商品名が一致しません",
          { lock := true
            assets := { capitalYen := 0, procurementPts := 0
                        inventory := [{ product := "juice", qty := 1000 }]
                        collection := [] }
            transactions := [] })) ∧
    (("juice" : String) ≠ "" → (0 : ℚ) < 5 → ("juice" : String) = "juice" →
      true = true →
      buyHandler ServerState.ACTIVE { name := "juice", priceYen := 120 }
          "1.1.1.1" 9 8 7 true true { product := some "juice", qty := some 5 } "2.2.2.2"
          { lock := true
            assets := { capitalYen := 0, procurementPts := 0
                        inventory := [{ product := "juice", qty := 1000 }]
                        collection := [] }
            transactions := [] } =
        (BuyResponse.failure 500 "サーバーエラーが発生しました",
          { lock := true
            assets := { capitalYen := 0, procurementPts := 0
                        inventory := [{ product := "juice", qty := 1000 }]
                        collection := [] }
            transactions := [] })) ∧
    (("juice" : String) ≠ "" → (0 : ℚ) < 5 → ("juice" : String) = "juice" →
      true = false →
      findInventory [{ product := "juice", qty := 1000 }] "juice" =
        some { product := "juice", qty := 1 } → (1 : ℚ) < 5 →
      buyHandler ServerState.ACTIVE { name := "juice", priceYen := 120 }
          "1.1.1.1" 9 8 7 true true { product := some "juice", qty := some 5 } "2.2.2.2"
          { lock := true
            assets := { capitalYen := 0, procurementPts := 0
                        inventory := [{ product := "juice", qty := 1000 }]
                        collection := [] }
            transactions := [] } =
        (BuyResponse.failure 409 "在庫が不足しています",
          { lock := true
            assets := { capitalYen := 0, procurementPts := 0
                        inventory := [{ product := "juice", qty := 1000 }]
                        collection := [] }
            transactions := [] })) :=
  buy_error_surfacing { name := "juice", priceYen := 120 } "1.1.1.1" 9 8 7
    true true { product := none, qty := some 5 } "2.2.2.2"
    { lock := true
      assets := { capitalYen := 0, procurementPts := 0
                  inventory := [{ product := "juice", qty := 1000 }]
                  collection := [] }
      transactions := [] }
    ServerState.CONFIGURED "juice" 5 { product := "juice", qty := 1 }

/-! ## Helper lemmas (registry side) -/

theorem jsFindIndex_eq_none {α : Type} (p : α → Bool) (l : List α)
    (h : ∀ x ∈ l, p x = false) : jsFindIndex p l = none := by
  induction l with
  | nil => rfl
  | cons x xs ih =>
    have hx := h x (List.mem_cons_self x xs)
    simp [jsFindIndex, hx]
    exact ih (fun y hy => h y (List.mem_cons_of_mem x hy))

theorem jsFindIndex_none_mem {α : Type} (p : α → Bool) (l : List α)
    (h : jsFindIndex p l = none) : ∀ x ∈ l, p x = false := by
  induction l with
  | nil => intro x hx; simp at hx
  | cons y ys ih =>
    intro x hx
    by_cases hy : p y
    · simp [jsFindIndex, hy] at h
    · simp [jsFindIndex, hy] at h
      rcases List.mem_cons.1 hx with hx1 | hx2
      · subst hx1; simpa using hy
      · exact ih h x hx2

theorem jsFindIndex_some_getElem? {α : Type} (p : α → Bool) (l : List α)
    (i : ℕ) (h : jsFindIndex p l = some i) :
    ∃ x, l[i]? = some x ∧ p x = true := by
  induction l generalizing i with
  | nil => simp [jsFindIndex] at h
  | cons y ys ih =>
    by_cases hy : p y
    · simp [jsFindIndex, hy] at h
      subst h
      exact ⟨y, List.getElem?_cons_zero, hy⟩
    · simp [jsFindIndex, hy] at h
      rcases h with ⟨i', hi', rfl⟩
      rcases ih i' hi' with ⟨x, hx, hpx⟩
      exact ⟨x, by simpa using hx, hpx⟩

theorem countP_set_jsFindIndex {α : Type} (p : α → Bool) (l : List α)
    (i : ℕ) (r : α) (h : jsFindIndex p l = some i) (hr : p r = true) :
    (l.set i r).countP p = l.countP p := by
  induction l generalizing i with
  | nil => simp [jsFindIndex] at h
  | cons y ys ih =>
    by_cases hy : p y
    · simp [jsFindIndex, hy] at h
      subst h
      simp [List.set, List.countP_cons, hr, hy]
    · simp [jsFindIndex, hy] at h
      rcases h with ⟨i', hi', rfl⟩
      simp [List.set, List.countP_cons, hy, ih i' hi']

theorem find?_set_jsFindIndex {α : Type} (p : α → Bool) (l : List α)
    (i : ℕ) (r : α) (h : jsFindIndex p l = some i) (hr : p r = true) :
    (l.set i r).find? p = some r := by
  induction l generalizing i with
  | nil => simp [jsFindIndex] at h
  | cons y ys ih =>
    by_cases hy : p y
    · simp [jsFindIndex, hy] at h
      subst h
      simp [List.set, List.find?, hr]
    · simp [jsFindIndex, hy] at h
      rcases h with ⟨i', hi', rfl⟩
      simp [List.set, List.find?, hy, ih i' hi']

theorem getElem?_set_preserve {α : Type} (p : α → Bool) (l : List α)
    (i : ℕ) (r : α) (h : jsFindIndex p l = some i) (j : ℕ) (x : α)
    (hx : l[j]? = some x) (hpx : p x = false) :
    (l.set i r)[j]? = some x := by
  rcases jsFindIndex_some_getElem? p l i h with ⟨y, hy, hpy⟩
  have hij : i ≠ j := by
    intro hij
    subst hij
    rw [hx] at hy
    cases hy
    rw [hpy] at hpx
    cases hpx
  rw [List.getElem?_set_ne hij]
  exact hx

/-! ## Claim theorems (registry side) -/

/-- C7: a health sweep neither adds nor removes records - the saved
directory has the same length, each position holding the same record
with only its status recomputed - and a record's status is set to ONLINE
exactly when its probe returned HTTP 200, to OFFLINE on any non-200
response or on a timeout or connection failure (probe outcome none).
The whole mapped directory is the single value saved at sweep end. -/
theorem performHealthChecks_statuses (probe : String → Option ℕ)
    (markets : List MarketRecord) :
    (performHealthChecks probe markets).length = markets.length ∧
    (∀ (i : ℕ) (x : MarketRecord), markets[i]? = some x →
      (performHealthChecks probe markets)[i]? =
        some { x with
               status := some (if checkServerHealth probe x.address
                               then "ONLINE" else "OFFLINE") }) ∧
    (∀ addr, checkServerHealth probe addr = true ↔ probe addr = some 200) := by
  refine ⟨by simp [performHealthChecks], ?_, ?_⟩
  · intro i x hx
    simp [performHealthChecks, hx]
  · intro addr
    unfold checkServerHealth
    cases hp : probe addr with
    | none => simp
    | some code => simp [beq_iff_eq]

/-- Witness for C7 at a concrete input. -/
theorem performHealthChecks_statuses_witness :
    (performHealthChecks (fun a => if a == "1.1.1.1:80" then some 200 else none)
        [updatedLegacy "juice" 100 "1.1.1.1:80" "T"]).length =
      [updatedLegacy "juice" 100 "1.1.1.1:80" "T"].length ∧
    (∀ (i : ℕ) (x : MarketRecord),
      [updatedLegacy "juice" 100 "1.1.1.1:80" "T"][i]? = some x →
      (performHealthChecks (fun a => if a == "1.1.1.1:80" then some 200 else none)
          [updatedLegacy "juice" 100 "1.1.1.1:80" "T"])[i]? =
        some { x with
               status := some (if checkServerHealth
                                 (fun a => if a == "1.1.1.1:80" then some 200 else none)
                                 x.address
                               then "ONLINE" else "OFFLINE") }) ∧
    (∀ addr, checkServerHealth
        (fun a => if a == "1.1.1.1:80" then some 200 else none) addr = true ↔
      (if addr == "1.1.1.1:80" then some 200 else none) = some 200) :=
  performHealthChecks_statuses
    (fun a => if a == "1.1.1.1:80" then some 200 else none)
    [updatedLegacy "juice" 100 "1.1.1.1:80" "T"]

/-- C9: under the current /register, re-registering an existing address
replaces its record with the fresh object holding only products,
address, status and updatedAt - product, price and in particular the
createdAt stamped at first registration are all absent afterwards -
while a first registration pushes a record that does carry createdAt. -/
theorem registerMulti_createdAt_frame (now : String) (req : RegisterRequest)
    (markets : List MarketRecord) (items : List RegisterItem)
    (hip : jsTruthyStr req.ip = true) (hport : jsTruthyPort req.port = true)
    (hprod : req.products = some items) (hne : items ≠ [])
    (hvalid : items.all registerItemValid = true) :
    (∀ i, jsFindIndex
        (fun m => m.address == mkAddress (req.ip.getD "") (req.port.getD 0))
        markets = some i →
      (registerMulti now req markets).2 =
        markets.set i
          (updatedMulti (normalizeItems items)
            (mkAddress (req.ip.getD "") (req.port.getD 0)) now)) ∧
    (updatedMulti (normalizeItems items)
        (mkAddress (req.ip.getD "") (req.port.getD 0)) now).createdAt = none ∧
    (updatedMulti (normalizeItems items)
        (mkAddress (req.ip.getD "") (req.port.getD 0)) now).product = none ∧
    (updatedMulti (normalizeItems items)
        (mkAddress (req.ip.getD "") (req.port.getD 0)) now).price = none ∧
    (jsFindIndex
        (fun m => m.address == mkAddress (req.ip.getD "") (req.port.getD 0))
        markets = none →
      (registerMulti now req markets).2 =
        markets ++
          [insertedMulti (normalizeItems items)
            (mkAddress (req.ip.getD "") (req.port.getD 0)) now]) ∧
    (insertedMulti (normalizeItems items)
        (mkAddress (req.ip.getD "") (req.port.getD 0)) now).createdAt =
      some now := by
  have hempty : items.isEmpty = false := List.isEmpty_eq_false.2 hne
  refine ⟨?_, rfl, rfl, rfl, ?_, rfl⟩
  · intro i hfind
    unfold registerMulti
    simp [hip, hport, hprod, hempty, hvalid, hfind]
  · intro hfind
    unfold registerMulti
    simp [hip, hport, hprod, hempty, hvalid, hfind]

/-- Witness for C9 at a concrete input (an existing record for the
address, so the update branch fires; the insert arm is exercised by its
contrapositive input being absent). -/
theorem registerMulti_createdAt_frame_witness :
    (∀ i, jsFindIndex
        (fun m => m.address ==
          mkAddress ((some "10.0.0.1" : Option String).getD "")
            ((some 9000 : Option ℕ).getD 0))
        [insertedLegacy "juice" 100 "10.0.0.1:9000" "T0"] = some i →
      (registerMulti "T1"
          { ip := some "10.0.0.1", port := some 9000
            products := some [{ product := some "tea", priceYen := some 50 }]
            product := none, priceYen := none }
          [insertedLegacy "juice" 100 "10.0.0.1:9000" "T0"]).2 =
        [insertedLegacy "juice" 100 "10.0.0.1:9000" "T0"].set i
          (updatedMulti
            (normalizeItems [{ product := some "tea", priceYen := some 50 }])
            (mkAddress ((some "10.0.0.1" : Option String).getD "")
              ((some 9000 : Option ℕ).getD 0)) "T1")) ∧
    (updatedMulti
        (normalizeItems [{ product := some "tea", priceYen := some 50 }])
        (mkAddress ((some "10.0.0.1" : Option String).getD "")
          ((some 9000 : Option ℕ).getD 0)) "T1").createdAt = none ∧
    (updatedMulti
        (normalizeItems [{ product := some "tea", priceYen := some 50 }])
        (mkAddress ((some "10.0.0.1" : Option String).getD "")
          ((some 9000 : Option ℕ).getD 0)) "T1").product = none ∧
    (updatedMulti
        (normalizeItems [{ product := some "tea", priceYen := some 50 }])
        (mkAddress ((some "10.0.0.1" : Option String).getD "")
          ((some 9000 : Option ℕ).getD 0)) "T1").price = none ∧
    (jsFindIndex
        (fun m => m.address ==
          mkAddress ((some "10.0.0.1" : Option String).getD "")
            ((some 9000 : Option ℕ).getD 0))
        [insertedLegacy "juice" 100 "10.0.0.1:9000" "T0"] = none →
      (registerMulti "T1"
          { ip := some "10.0.0.1", port := some 9000
            products := some [{ product := some "tea", priceYen := some 50 }]
            product := none, priceYen := none }
          [insertedLegacy "juice" 100 "10.0.0.1:9000" "T0"]).2 =
        [insertedLegacy "juice" 100 "10.0.0.1:9000" "T0"] ++
          [insertedMulti
            (normalizeItems [{ product := some "tea", priceYen := some 50 }])
            (mkAddress ((some "10.0.0.1" : Option String).getD "")
              ((some 9000 : Option ℕ).getD 0)) "T1"]) ∧
    (insertedMulti
        (normalizeItems [{ product := some "tea", priceYen := some 50 }])
        (mkAddress ((some "10.0.0.1" : Option String).getD "")
          ((some 9000 : Option ℕ).getD 0)) "T1").createdAt = some "T1" :=
  registerMulti_createdAt_frame "T1"
    { ip := some "10.0.0.1", port := some 9000
      products := some [{ product := some "tea", priceYen := some 50 }]
      product := none, priceYen := none }
    [insertedLegacy "juice" 100 "10.0.0.1:9000" "T0"]
    [{ product := some "tea", priceYen := some 50 }]
    (by decide) (by decide) rfl (by decide) (by decide)

/-- C6: starting from a directory with at most one record per address, a
valid register of an address answers 200 and leaves exactly one record
for that address, whose catalog is the newly normalized one, status
ONLINE and updatedAt the new stamp; a register of an address no record
holds appends exactly one record to the end; and every record of another
address keeps its position and value. -/
theorem registerMulti_upsert_unique (now : String) (req : RegisterRequest)
    (markets : List MarketRecord) (items : List RegisterItem) (addr : String)
    (hip : jsTruthyStr req.ip = true) (hport : jsTruthyPort req.port = true)
    (hprod : req.products = some items) (hne : items ≠ [])
    (hvalid : items.all registerItemValid = true)
    (haddr : addr = mkAddress (req.ip.getD "") (req.port.getD 0))
    (huniq : ∀ a : String, markets.countP (fun m => m.address == a) ≤ 1) :
    (registerMulti now req markets).1.status = 200 ∧
    ((registerMulti now req markets).2).countP (fun m => m.address == addr) = 1 ∧
    (∃ r, ((registerMulti now req markets).2).find? (fun m => m.address == addr) =
        some r ∧
      r.products = some (normalizeItems items) ∧ r.status = some "ONLINE" ∧
      r.updatedAt = some now) ∧
    ((∀ m ∈ markets, ¬ m.address = addr) →
      (registerMulti now req markets).2 =
        markets ++ [insertedMulti (normalizeItems items) addr now]) ∧
    (∀ (j : ℕ) (x : MarketRecord), markets[j]? = some x → ¬ x.address = addr →
      ((registerMulti now req markets).2)[j]? = some x) := by
  subst haddr
  have hempty : items.isEmpty = false := List.isEmpty_eq_false.2 hne
  set addr := mkAddress (req.ip.getD "") (req.port.getD 0) with haddr
  set p : MarketRecord → Bool := fun m => m.address == addr with hp
  have hout : (registerMulti now req markets).1.status = 200 ∧
      (registerMulti now req markets).2 =
        match jsFindIndex p markets with
        | some i => markets.set i (updatedMulti (normalizeItems items) addr now)
        | none => markets ++ [insertedMulti (normalizeItems items) addr now] := by
    unfold registerMulti
    simp [hip, hport, hprod, hempty, hvalid]
  refine ⟨hout.1, ?_⟩
  rw [hout.2]
  cases hfind : jsFindIndex p markets with
  | some i =>
    have hpupd : p (updatedMulti (normalizeItems items) addr now) = true := by
      simp [hp, updatedMulti]
    rcases jsFindIndex_some_getElem? p markets i hfind with ⟨y, hy, hpy⟩
    have hcount1 : markets.countP p = 1 := by
      have hpos : 0 < markets.countP p :=
        List.countP_pos_iff.2 ⟨y, List.getElem?_mem hy, hpy⟩
      have hle : markets.countP p ≤ 1 := by
        rw [hp]
        exact huniq addr
      omega
    refine ⟨?_, ?_, ?_, ?_⟩
    · rw [countP_set_jsFindIndex p markets i _ hfind hpupd, hcount1]
    · exact ⟨updatedMulti (normalizeItems items) addr now,
        find?_set_jsFindIndex p markets i _ hfind hpupd, rfl, rfl, rfl⟩
    · intro hnone
      have := hnone y (List.getElem?_mem hy)
      simp [hp] at hpy
      exact absurd hpy this
    · intro j x hx hnx
      exact getElem?_set_preserve p markets i _ hfind j x hx
        (by simp [hp]; exact hnx)
  | none =>
    have hzero : markets.countP p = 0 :=
      List.countP_eq_zero.2 (by
        intro a ha
        have := jsFindIndex_none_mem p markets hfind a ha
        simp [this])
    have hpins : p (insertedMulti (normalizeItems items) addr now) = true := by
      simp [hp, insertedMulti, updatedMulti]
    refine ⟨?_, ?_, fun _ => rfl, ?_⟩
    · rw [List.countP_append, hzero]
      simp [hpins]
    · refine ⟨insertedMulti (normalizeItems items) addr now, ?_, rfl, rfl, rfl⟩
      rw [List.find?_append]
      have : markets.find? p = none :=
        List.find?_eq_none.2 (by
          intro a ha
          have := jsFindIndex_none_mem p markets hfind a ha
          simp [this])
      simp [this, hpins]
    · intro j x hx hnx
      have hj : j < markets.length := by
        rcases List.getElem?_eq_some_iff.1 hx with ⟨h, _⟩
        exact h
      rw [List.getElem?_append_left hj]
      exact hx

/-- The at-most-one-record-per-address hypothesis for a concrete
two-record directory with distinct addresses. -/
theorem countP_address_le_one_pair (r1 r2 : MarketRecord)
    (h : r1.address ≠ r2.address) :
    ∀ a : String, ([r1, r2].countP (fun m => m.address == a)) ≤ 1 := by
  intro a
  by_cases h1 : r1.address == a <;> by_cases h2 : r2.address == a <;>
    simp [List.countP_cons, h1, h2]
  rw [beq_iff_eq] at h1 h2
  exact absurd (h1.trans h2.symm) h

/-- Witness for C6 at a concrete input: re-registering 10.0.0.1:9000
into a directory holding that address and one other. -/
theorem registerMulti_upsert_unique_witness :
    (registerMulti "T1"
        { ip := some "10.0.0.1", port := some 9000
          products := some [{ product := some "tea", priceYen := some 50 }]
          product := none, priceYen := none }
        [insertedLegacy "juice" 100 "10.0.0.1:9000" "T0",
         insertedLegacy "cola" 80 "10.0.0.2:9000" "T0"]).1.status = 200 ∧
    ((registerMulti "T1"
        { ip := some "10.0.0.1", port := some 9000
          products := some [{ product := some "tea", priceYen := some 50 }]
          product := none, priceYen := none }
        [insertedLegacy "juice" 100 "10.0.0.1:9000" "T0",
         insertedLegacy "cola" 80 "10.0.0.2:9000" "T0"]).2).countP
      (fun m => m.address == "10.0.0.1:9000") = 1 ∧
    (∃ r, ((registerMulti "T1"
        { ip := some "10.0.0.1", port := some 9000
          products := some [{ product := some "tea", priceYen := some 50 }]
          product := none, priceYen := none }
        [insertedLegacy "juice" 100 "10.0.0.1:9000" "T0",
         insertedLegacy "cola" 80 "10.0.0.2:9000" "T0"]).2).find?
          (fun m => m.address == "10.0.0.1:9000") = some r ∧
      r.products =
        some (normalizeItems [{ product := some "tea", priceYen := some 50 }]) ∧
      r.status = some "ONLINE" ∧ r.updatedAt = some "T1") ∧
    ((∀ m ∈ [insertedLegacy "juice" 100 "10.0.0.1:9000" "T0",
             insertedLegacy "cola" 80 "10.0.0.2:9000" "T0"],
        ¬ m.address = "10.0.0.1:9000") →
      (registerMulti "T1"
          { ip := some "10.0.0.1", port := some 9000
            products := some [{ product := some "tea", priceYen := some 50 }]
            product := none, priceYen := none }
          [insertedLegacy "juice" 100 "10.0.0.1:9000" "T0",
           insertedLegacy "cola" 80 "10.0.0.2:9000" "T0"]).2 =
        [insertedLegacy "juice" 100 "10.0.0.1:9000" "T0",
         insertedLegacy "cola" 80 "10.0.0.2:9000" "T0"] ++
          [insertedMulti
            (normalizeItems [{ product := some "tea", priceYen := some 50 }])
            "10.0.0.1:9000" "T1"]) ∧
    (∀ (j : ℕ) (x : MarketRecord),
      [insertedLegacy "juice" 100 "10.0.0.1:9000" "T0",
       insertedLegacy "cola" 80 "10.0.0.2:9000" "T0"][j]? = some x →
      ¬ x.address = "10.0.0.1:9000" →
      ((registerMulti "T1"
          { ip := some "10.0.0.1", port := some 9000
            products := some [{ product := some "tea", priceYen := some 50 }]
            product := none, priceYen := none }
          [insertedLegacy "juice" 100 "10.0.0.1:9000" "T0",
           insertedLegacy "cola" 80 "10.0.0.2:9000" "T0"]).2)[j]? = some x) :=
  registerMulti_upsert_unique "T1"
    { ip := some "10.0.0.1", port := some 9000
      products := some [{ product := some "tea", priceYen := some 50 }]
      product := none, priceYen := none }
    [insertedLegacy "juice" 100 "10.0.0.1:9000" "T0",
     insertedLegacy "cola" 80 "10.0.0.2:9000" "T0"]
    [{ product := some "tea", priceYen := some 50 }] "10.0.0.1:9000"
    (by decide) (by decide) rfl (by decide) (by decide) (by decide)
    (countP_address_le_one_pair _ _ (by decide))

/-- C5 counterexample: the current /register does not accept the legacy
single-product shape.  The request ip 127.0.0.1, product りんごジュース,
priceYen 120, port 8082 - exactly what my-store.js sends - carries no
products array and is rejected with 400 MalformedRequest, the directory
left untouched, instead of being accepted as the claim states. -/
theorem registerMulti_rejects_legacy_shape :
    registerMulti "2025-01-01T00:00:00.000Z"
        { ip := some "127.0.0.1", port := some 8082, products := none
          product := some "りんごジュース", priceYen := some 120 } [] =
      ({ status := 400, message := "必須パラメータが不足しています" }, []) ∧
    (registerMulti "2025-01-01T00:00:00.000Z"
        { ip := some "127.0.0.1", port := some 8082, products := none
          product := some "りんごジュース", priceYen := some 120 } []).1.status ≠
      200 := by
  constructor <;> decide

/-- C5 amended: the repository's two register routes each accept exactly
one shape.  The current route accepts only the multi-product shape -
a request without a products array, the legacy shape included, gets 400
with the directory unchanged, a valid multi-product request gets 200,
and an item with a missing name or non-positive price gets 400 with the
directory unchanged.  The legacy route accepts the legacy shape (200)
and rejects a body without a product field (400, unchanged).  The two
routes store different representations; it is the current listing
operation that projects a legacy-stored record and a multi-stored record
of the same single product, for any non-empty product name (the legacy
read branch is guarded by JS truthiness of the product field), to the
same entry. -/
theorem register_shapes_and_normalization (now : String)
    (req : RegisterRequest) (markets : List MarketRecord)
    (items : List RegisterItem) (name : String) (price : ℚ)
    (address : String) :
    (req.products = none →
      registerMulti now req markets =
        ({ status := 400, message := "必須パラメータが不足しています" }, markets)) ∧
    (jsTruthyStr req.ip = true → jsTruthyPort req.port = true →
      req.products = some items → items ≠ [] →
      items.all registerItemValid = true →
      (registerMulti now req markets).1.status = 200) ∧
    (jsTruthyStr req.ip = true → jsTruthyPort req.port = true →
      req.products = some items → items ≠ [] →
      items.all registerItemValid = false →
      registerMulti now req markets =
        ({ status := 400, message := "商品名と正の価格が必要です" }, markets)) ∧
    (jsTruthyStr req.ip = true → jsTruthyStr req.product = true →
      jsTruthyNum req.priceYen = true → jsTruthyPort req.port = true →
      posNum req.priceYen = true →
      (registerLegacy now req markets).1.status = 200) ∧
    (req.product = none →
      registerLegacy now req markets =
        ({ status := 400, message := "必須パラメータが不足しています" }, markets)) ∧
    (name ≠ "" →
      listEntry (updatedLegacy name price address now) =
        listEntry (updatedMulti [{ product := name, price := price }] address now)) := by
  refine ⟨?_, ?_, ?_, ?_, ?_, ?_⟩
  · intro hnone
    unfold registerMulti
    by_cases h : (jsTruthyStr req.ip && jsTruthyPort req.port) = true <;>
      simp [h, hnone]
  · intro hip hport hprod hne hvalid
    have hempty : items.isEmpty = false := List.isEmpty_eq_false.2 hne
    unfold registerMulti
    simp [hip, hport, hprod, hempty, hvalid]
  · intro hip hport hprod hne hinvalid
    have hempty : items.isEmpty = false := List.isEmpty_eq_false.2 hne
    unfold registerMulti
    simp [hip, hport, hprod, hempty, hinvalid]
  · intro hip hname hprice hport hpos
    unfold registerLegacy
    simp [hip, hname, hprice, hport, hpos]
  · intro hnone
    unfold registerLegacy
    simp [hnone, jsTruthyStr]
  · intro hname
    simp [listEntry, updatedLegacy, updatedMulti, hname]

/-- Witness for the amended C5: the legacy-shaped my-store request against
the current route (400), the same data as a multi-product request (200),
the same data against the legacy route (200), and the two stored shapes
projecting to one listing entry. -/
theorem register_shapes_and_normalization_witness :
    ((some [{ product := some "りんごジュース",
              priceYen := some 120 }] : Option (List RegisterItem)) = none →
      registerMulti "T"
          { ip := some "127.0.0.1", port := some 8082
            products := some [{ product := some "りんごジュース", priceYen := some 120 }]
            product := some "りんごジュース", priceYen := some 120 } [] =
        ({ status := 400, message := "必須パラメータが不足しています" }, [])) ∧
    (jsTruthyStr (some "127.0.0.1") = true → jsTruthyPort (some 8082) = true →
      (some [{ product := some "りんごジュース",
               priceYen := some 120 }] : Option (List RegisterItem)) =
        some [{ product := some "りんごジュース", priceYen := some 120 }] →
      [({ product := some "りんごジュース",
          priceYen := some 120 } : RegisterItem)] ≠ [] →
      [({ product := some "りんごジュース",
          priceYen := some 120 } : RegisterItem)].all registerItemValid = true →
      (registerMulti "T"
          { ip := some "127.0.0.1", port := some 8082
            products := some [{ product := some "りんごジュース", priceYen := some 120 }]
            product := some "りんごジュース", priceYen := some 120 } []).1.status = 200) ∧
    (jsTruthyStr (some "127.0.0.1") = true → jsTruthyPort (some 8082) = true →
      (some [{ product := some "りんごジュース",
               priceYen := some 120 }] : Option (List RegisterItem)) =
        some [{ product := some "りんごジュース", priceYen := some 120 }] →
      [({ product := some "りんごジュース",
          priceYen := some 120 } : RegisterItem)] ≠ [] →
      [({ product := some "りんごジュース",
          priceYen := some 120 } : RegisterItem)].all registerItemValid = false →
      registerMulti "T"
          { ip := some "127.0.0.1", port := some 8082
            products := some [{ product := some "りんごジュース", priceYen := some 120 }]
            product := some "りんごジュース", priceYen := some 120 } [] =
        ({ status := 400, message := "商品名と正の価格が必要です" }, [])) ∧
    (jsTruthyStr (some "127.0.0.1") = true →
      jsTruthyStr (some "りんごジュース") = true →
      jsTruthyNum (some (120 : ℚ)) = true → jsTruthyPort (some 8082) = true →
      posNum (some (120 : ℚ)) = true →
      (registerLegacy "T"
          { ip := some "127.0.0.1", port := some 8082
            products := some [{ product := some "りんごジュース", priceYen := some 120 }]
            product := some "りんごジュース", priceYen := some 120 } []).1.status = 200) ∧
    ((some "りんごジュース" : Option String) = none →
      registerLegacy "T"
          { ip := some "127.0.0.1", port := some 8082
            products := some [{ product := some "りんごジュース", priceYen := some 120 }]
            product := some "りんごジュース", priceYen := some 120 } [] =
        ({ status := 400, message := "必須パラメータが不足しています" }, [])) ∧
    (("りんごジュース" : String) ≠ "" →
      listEntry (updatedLegacy "りんごジュース" 120 "127.0.0.1:8082" "T") =
        listEntry (updatedMulti [{ product := "りんごジュース", price := 120 }]
          "127.0.0.1:8082" "T")) :=
  register_shapes_and_normalization "T"
    { ip := some "127.0.0.1", port := some 8082
      products := some [{ product := some "りんごジュース", priceYen := some 120 }]
      product := some "りんごジュース", priceYen := some 120 }
    [] [{ product := some "りんごジュース", priceYen := some 120 }]
    "りんごジュース" 120 "127.0.0.1:8082"

end MarketApp
